import Mathlib

/-!
Verification of the gehen deployment orchestrator against its design
specification.  The Go source is shallowly embedded: each definition below
translates one function of the source (`deploy/deploy.go`, `awsecs/awsecs.go`,
`config/config.go`, `main.go`).  Goroutine/channel nondeterminism is made
explicit: channel arrival orders become lists, collaborator calls become
oracle functions or observation traces.
-/

namespace Gehen

/-- Error classification used by the deploy package: `timedOut` is
`deploy.ErrTimedOut`, `noDeployCheckURL` is `deploy.ErrNoDeployCheckURL`,
`backend` wraps an error returned by the ECS backend, and `healthcheck`
wraps `awsecs.ErrHealthcheckFailed`. -/
inductive GErr where
  | timedOut
  | noDeployCheckURL
  | backend (msg : String)
  | healthcheck (msg : String)
deriving DecidableEq

/-- `config.Service` (`config/config.go`): one deployable unit with its
version/revision history. -/
structure Service where
  name : String
  gitsha : String
  cluster : String
  url : String
  updateStrategy : String
  containers : List String
  previousGitsha : String
  previousTaskDefinitionARN : String
  taskDefinitionARN : String
  tags : List String
deriving DecidableEq

/-- A service as constructed from configuration (`config.Read`): history
fields start empty. -/
def mkService (name gitsha url : String) : Service :=
  { name := name, gitsha := gitsha, cluster := "", url := url,
    updateStrategy := "current", containers := [], previousGitsha := "",
    previousTaskDefinitionARN := "", taskDefinitionARN := "", tags := [] }

/-- `deploy.Result` (`deploy/deploy.go:34-37`): per-unit outcome of a stage;
`err = none` is success. -/
structure Result where
  service : Service
  err : Option GErr
deriving DecidableEq

/-- The version comparison of `CheckDeployed` (`deploy/deploy.go:128`):
`len(fetchedSha) > 7 && strings.HasPrefix(service.Gitsha, fetchedSha)`.
The tokens involved are ASCII so Go's byte length equals the character
count used here. -/
def deployCheckMatches (gitsha fetchedSha : String) : Bool :=
  decide (7 < fetchedSha.data.length) && fetchedSha.data.isPrefixOf gitsha.data

/-- One observation of the version prober (`fetchRevisionSha`,
`deploy/deploy.go:286-317`): a failure (transport error or non-200 status)
or a fetched version token. -/
inductive ProbeObs where
  | fail (msg : String)
  | token (sha : String)
deriving DecidableEq

/-- The polling loop of one `CheckDeployed` goroutine
(`deploy/deploy.go:117-132`) run against a finite prefix of prober
observations: a probe failure is logged and the loop retries (`continue`);
the first matching token sends a success result; a non-matching token also
retries.  `none` means the goroutine has not sent any result within this
observation prefix. -/
def checkDeployedPoll (gitsha : String) : List ProbeObs → Option (Option GErr)
  | [] => none
  | .fail _ :: rest => checkDeployedPoll gitsha rest
  | .token sha :: rest =>
    if deployCheckMatches gitsha sha then some none else checkDeployedPoll gitsha rest

/-- One `CheckDeployed` goroutine (`deploy/deploy.go:108-133`): a unit with an
empty check URL immediately reports `ErrNoDeployCheckURL` without consulting
the prober; otherwise it runs the polling loop. -/
def checkDeployedUnit (s : Service) (obs : List ProbeObs) : Option (Option GErr) :=
  if s.url = "" then some (some GErr.noDeployCheckURL) else checkDeployedPoll s.gitsha obs

/-- One observation of `awsecs.CheckDrain`: a backend error, or whether the
service has drained. -/
inductive DrainObs where
  | fail (msg : String)
  | drained (b : Bool)
deriving DecidableEq

/-- The polling loop of one `CheckDrained` goroutine
(`deploy/deploy.go:176-196`): a backend error immediately sends a failure
result for the unit and stops polling; `drained = false` retries;
`drained = true` sends success. -/
def checkDrainedPoll : List DrainObs → Option (Option GErr)
  | [] => none
  | .fail m :: _ => some (some (GErr.backend m))
  | .drained true :: _ => some none
  | .drained false :: rest => checkDrainedPoll rest

/-- One pending channel message in a polling stage: the delay since the
previous receive and the per-unit result it carries. -/
structure Arrival where
  delay : Nat
  res : Result
deriving DecidableEq

/-- The collection loop of `CheckDeployed` / `CheckDrained`
(`deploy/deploy.go:140-157` and `203-214`): at most one receive per input
unit; each iteration selects between the next channel message and a freshly
started `time.After(timeoutDuration)` timer.  A message arriving within the
timeout is received (elapsed time grows by its delay) and the loop continues;
otherwise the timer fires (elapsed time grows by the full timeout) and the
loop breaks.  Returns the received results and the total elapsed wait. -/
def pollLoop (timeout : Nat) : Nat → List Arrival → List Result × Nat
  | 0, _ => ([], 0)
  | _ + 1, [] => ([], timeout)
  | n + 1, a :: rest =>
    if a.delay ≤ timeout then
      (a.res :: (pollLoop timeout n rest).1, a.delay + (pollLoop timeout n rest).2)
    else ([], timeout)

/-- Results actually received by the collection loop before it stopped. -/
def pollReceived (timeout : Nat) (services : List Service) (arrivals : List Arrival) :
    List Result :=
  (pollLoop timeout services.length arrivals).1

/-- Full result list of a polling stage (`deploy/deploy.go:136-167` and
`199-225`): the received results, followed by a synthesized `ErrTimedOut`
result for every service whose name was never seen in the completed-name
set. -/
def pollCollect (timeout : Nat) (services : List Service) (arrivals : List Arrival) :
    List Result :=
  let received := pollReceived timeout services arrivals
  let completed := received.map fun r => r.service.name
  received ++
    (services.filter fun s => !decide (s.name ∈ completed)).map
      fun s => { service := s, err := some GErr.timedOut }

/-- Total wall-clock time the collection loop of a polling stage waits. -/
def pollElapsed (timeout : Nat) (services : List Service) (arrivals : List Arrival) : Nat :=
  (pollLoop timeout services.length arrivals).2

/-- Collection of a one-shot stage (`deploy.Deploy`, `deploy/deploy.go:54-72`):
every goroutine sends exactly one result and the loop receives exactly
`len(services)` of them; `order` is the nondeterministic channel arrival
order, a permutation of the input units. -/
def oneShotStage (order : List Service) (outcome : Service → Option GErr) : List Result :=
  order.map fun s => { service := s, err := outcome s }

/-- The field swap performed by `deploy.Rollback` on each unit
(`deploy/deploy.go:79-86`): target version with previous version, and
current revision ARN with previous revision ARN. -/
def rollbackSwap (s : Service) : Service :=
  { s with gitsha := s.previousGitsha, previousGitsha := s.gitsha,
           taskDefinitionARN := s.previousTaskDefinitionARN,
           previousTaskDefinitionARN := s.taskDefinitionARN }

/-- `deploy.Rollback` (`deploy/deploy.go:74-100`): every input unit is swapped
in place before its `awsecs.UpdateService` call is issued, and the swap is
kept whatever that call returns; `updErr` is the backend outcome per
(swapped) unit.  Returns the final unit states and the stage results
(channel arrival order abstracted to input order; the properties proved
below are order-insensitive). -/
def rollbackStage (services : List Service) (updErr : Service → Option GErr) :
    List Service × List Result :=
  let swapped := services.map rollbackSwap
  (swapped, swapped.map fun s => { service := s, err := updErr s })

/-- Number of results carrying a given unit name. -/
def countName (rs : List Result) (nm : String) : Nat :=
  (rs.map fun r => r.service.name).count nm

/-- A stage produced exactly one result per input unit. -/
def exactlyOnePerUnit (services : List Service) (results : List Result) : Prop :=
  results.length = services.length ∧ ∀ s ∈ services, countName results s.name = 1

lemma pollLoop_fst_sublist (timeout : Nat) :
    ∀ (n : Nat) (arrivals : List Arrival),
      List.Sublist (pollLoop timeout n arrivals).1 (arrivals.map fun a => a.res) := by
  intro n
  induction n with
  | zero => intro arrivals; simp [pollLoop]
  | succ k ih =>
    intro arrivals
    cases arrivals with
    | nil => simp [pollLoop]
    | cons a rest =>
      by_cases h : a.delay ≤ timeout
      · simpa [pollLoop, h] using List.Sublist.cons₂ a.res (ih rest)
      · simp [pollLoop, h]

lemma filter_map_name (q : String → Bool) (ss : List Service) :
    ((ss.filter fun s => q s.name).map fun s => s.name)
      = (ss.map fun s => s.name).filter q := by
  induction ss with
  | nil => simp
  | cons s t ih => by_cases h : q s.name <;> simp [h, ih]

lemma names_cover_perm {l sub : List String} (hl : l.Nodup) (hsub : sub.Nodup)
    (hss : ∀ x ∈ sub, x ∈ l) :
    List.Perm (sub ++ l.filter fun x => !decide (x ∈ sub)) l := by
  rw [List.perm_iff_count]
  intro a
  rw [List.count_append]
  by_cases ha : a ∈ sub
  · have h1 : sub.count a = 1 := List.count_eq_one_of_mem hsub ha
    have h2 : (l.filter fun x => !decide (x ∈ sub)).count a = 0 := by
      rw [List.count_eq_zero]
      intro hmem
      have := List.of_mem_filter hmem
      simp [ha] at this
    rw [h1, h2, List.count_eq_one_of_mem hl (hss a ha)]
  · have h1 : sub.count a = 0 := List.count_eq_zero.mpr ha
    have h2 : (l.filter fun x => !decide (x ∈ sub)).count a = l.count a := by
      rw [List.count_filter (by simp [ha])]
    rw [h1, h2, Nat.zero_add]

lemma pollReceived_names_sublist (timeout : Nat) (services : List Service)
    (arrivals : List Arrival) :
    List.Sublist ((pollReceived timeout services arrivals).map fun r => r.service.name)
      (arrivals.map fun a => a.res.service.name) := by
  have h := (pollLoop_fst_sublist timeout services.length arrivals).map
    fun r => r.service.name
  simpa [pollReceived, List.map_map, Function.comp_def] using h

lemma pollCollect_names_perm (timeout : Nat) (services : List Service)
    (arrivals : List Arrival)
    (h1 : (services.map fun s => s.name).Nodup)
    (h2 : ∀ a ∈ arrivals, a.res.service ∈ services)
    (h3 : (arrivals.map fun a => a.res.service.name).Nodup) :
    List.Perm ((pollCollect timeout services arrivals).map fun r => r.service.name)
      (services.map fun s => s.name) := by
  have hsubnames := pollReceived_names_sublist timeout services arrivals
  have hnd : ((pollReceived timeout services arrivals).map fun r => r.service.name).Nodup :=
    h3.sublist hsubnames
  have hmem : ∀ x ∈ (pollReceived timeout services arrivals).map fun r => r.service.name,
      x ∈ services.map fun s => s.name := by
    intro x hx
    obtain ⟨r, hr, rfl⟩ := List.mem_map.1 hx
    have hr' : r ∈ arrivals.map fun a => a.res :=
      (pollLoop_fst_sublist timeout services.length arrivals).subset hr
    obtain ⟨a, ha, rfl⟩ := List.mem_map.1 hr'
    exact List.mem_map.2 ⟨a.res.service, h2 a ha, rfl⟩
  have hshape : (pollCollect timeout services arrivals).map (fun r => r.service.name)
      = ((pollReceived timeout services arrivals).map fun r => r.service.name)
        ++ (services.map fun s => s.name).filter
            (fun x => !decide (x ∈ (pollReceived timeout services arrivals).map
              fun r => r.service.name)) := by
    rw [pollCollect, List.map_append, List.map_map]
    congr 1
    have hc : ((fun r => r.service.name) ∘
        fun s => ({ service := s, err := some GErr.timedOut } : Result))
        = fun s : Service => s.name := rfl
    rw [hc]
    exact filter_map_name
      (fun x => !decide (x ∈ (pollReceived timeout services arrivals).map
        fun r => r.service.name)) services
  rw [hshape]
  exact names_cover_perm h1 hnd hmem

/-- One container definition of an ECS task definition (name and image). -/
structure Container where
  name : String
  image : String
deriving DecidableEq

/-- The fields of an ECS task definition relevant to `updateTaskDef`. -/
structure TaskDef where
  arn : String
  containers : List Container
deriving DecidableEq

/-- `strings.Split` for a single-character separator, on character lists:
splits into the (possibly empty) chunks between occurrences of `sep`; the
result is never empty. -/
def splitOnChar (sep : Char) : List Char → List (List Char)
  | [] => [[]]
  | c :: rest =>
    if c = sep then [] :: splitOnChar sep rest
    else
      match splitOnChar sep rest with
      | [] => [[c]]
      | h :: t => (c :: h) :: t

/-- Tag extraction in `updateTaskDef` (`awsecs/awsecs.go:412-417`):
`t := strings.Split(image, ":")`; the tag is the last element. -/
def imageTag (image : String) : String :=
  ⟨(splitOnChar ':' image.data).getLastD []⟩

/-- Image rewriting in `updateTaskDef` (`awsecs/awsecs.go:427`):
`fmt.Sprintf("%s:%s", strings.Join(t[:len(t)-1], ""), gitsha)` — note the
empty join separator, exactly as in the source. -/
def imageRetag (image gitsha : String) : String :=
  ⟨((splitOnChar ':' image.data).dropLast).flatten ++ ':' :: gitsha.data⟩

/-- Loop state of `updateTaskDef`: the first observed previous tag and whether
any container image was changed. -/
structure UTDState where
  previousGitsha : String
  shouldUpdate : Bool
deriving DecidableEq

/-- The container-update loop of `updateTaskDef` (`awsecs/awsecs.go:402-430`):
skip containers outside a non-empty filter; record the first observed tag as
the previous Git SHA; leave a container unchanged when the target SHA equals
that observed SHA; otherwise retag it and mark that an update is needed. -/
def updateTaskDefLoop (gitsha : String) (toUpdate : List String) :
    List Container → UTDState → List Container × UTDState
  | [], st => ([], st)
  | c :: rest, st =>
    if toUpdate ≠ [] ∧ c.name ∉ toUpdate then
      let r := updateTaskDefLoop gitsha toUpdate rest st
      (c :: r.1, r.2)
    else
      let prev := if st.previousGitsha = "" then imageTag c.image else st.previousGitsha
      if gitsha = prev then
        let r := updateTaskDefLoop gitsha toUpdate rest ⟨prev, st.shouldUpdate⟩
        (c :: r.1, r.2)
      else
        let r := updateTaskDefLoop gitsha toUpdate rest ⟨prev, true⟩
        ({ c with image := imageRetag c.image gitsha } :: r.1, r.2)

/-- The previous Git SHA observed by `updateTaskDef` on a task definition. -/
def observedPreviousSha (td : TaskDef) (gitsha : String) (toUpdate : List String) : String :=
  (updateTaskDefLoop gitsha toUpdate td.containers ⟨"", false⟩).2.previousGitsha

/-- Result of `updateTaskDef` (`awsecs/awsecs.go:346-350`); docker label
formatting is telemetry only and is not modelled. -/
structure UpdateTaskDefRes where
  newTaskDefARN : String
  previousGitsha : String
deriving DecidableEq

/-- `updateTaskDef` (`awsecs/awsecs.go:354-462`), success path: when no
container image changed the current task definition ARN is reused, otherwise
the backend-registered ARN (`registeredARN`) is returned; either way the
observed previous SHA is reported. -/
def updateTaskDefModel (td : TaskDef) (gitsha : String) (toUpdate : List String)
    (registeredARN : String) : UpdateTaskDefRes :=
  let st := (updateTaskDefLoop gitsha toUpdate td.containers ⟨"", false⟩).2
  if st.shouldUpdate then ⟨registeredARN, st.previousGitsha⟩ else ⟨td.arn, st.previousGitsha⟩

/-- What a successful `awsecs.Deploy` writes back onto the unit
(`awsecs/awsecs.go:251-256`): the backend-observed previous version token,
the previously active revision ARN, the newly registered revision ARN, and
the telemetry tags. -/
structure DeployWrite where
  previousGitsha : String
  awsTaskDefARN : String
  newTaskDefARN : String
  tags : List String
deriving DecidableEq

/-- The field writes of a successful `awsecs.Deploy`
(`awsecs/awsecs.go:251-256`). -/
def applyDeployWrite (s : Service) (w : DeployWrite) : Service :=
  { s with previousGitsha := w.previousGitsha,
           previousTaskDefinitionARN := w.awsTaskDefARN,
           taskDefinitionARN := w.newTaskDefARN,
           tags := w.tags }

/-- Success path of `awsecs.Deploy` (`awsecs/awsecs.go:224-261`): describe the
service (its active task definition is `td.arn`), run `updateTaskDef`, and
write the results back onto the unit.  `registeredARN` and `dockerTags` are
the backend-supplied new revision ARN and telemetry labels. -/
def deployService (s : Service) (td : TaskDef) (registeredARN : String)
    (dockerTags : List String) : Service :=
  let res := updateTaskDefModel td s.gitsha s.containers registeredARN
  applyDeployWrite s
    { previousGitsha := res.previousGitsha, awsTaskDefARN := td.arn,
      newTaskDefARN := res.newTaskDefARN, tags := dockerTags }

/-- Stage invocations of one run of `main`, in execution order. -/
inductive StageEvent where
  | updateScheduledTasks
  | deployStage
  | checkDeployedStage
  | checkDrainedStage
  | rollback
deriving DecidableEq

/-- Terminal classification of one run of `main`. -/
inductive RunOutcome where
  | fatalScheduledTasks
  | rollbackRun
  | deployFailedExit
  | degradedSuccess
  | success
deriving DecidableEq

/-- Aggregate outcome of one run of `main`: the stages it invoked, the unit
set `performRollback` was invoked over (if it was), the final unit states,
and the terminal classification. -/
structure RunResult where
  events : List StageEvent
  rollbackCall : Option (List Service)
  finalServices : List Service
  outcome : RunOutcome

/-- Per-run collaborator outcomes, one entry per stage: whether any scheduled
task update failed, the backend outcome of each unit's deploy, and each
unit's `CheckDeployed` / `CheckDrained` stage-result error. -/
structure Oracles where
  scheduledFailed : Bool
  deployOutcome : Service → Except GErr DeployWrite
  checkDeployedErr : Service → Option GErr
  checkDrainedErr : Service → Option GErr

/-- Whether any unit's deploy failed (`main.go:320-337`). -/
def deployStageFailed (services : List Service) (f : Service → Except GErr DeployWrite) :
    Bool :=
  services.any fun s => match f s with | .error _ => true | .ok _ => false

/-- A unit after its deploy outcome: mutated on success, untouched on error. -/
def applyDeployOutcome (s : Service) : Except GErr DeployWrite → Service
  | .error _ => s
  | .ok w => applyDeployWrite s w

/-- All units after the deploy stage. -/
def deployUpdated (services : List Service) (f : Service → Except GErr DeployWrite) :
    List Service :=
  services.map fun s => applyDeployOutcome s (f s)

/-- The units whose deploy succeeded (`succeededServices`, `main.go:318-323`),
in their post-deploy state. -/
def deploySucceeded (services : List Service) (f : Service → Except GErr DeployWrite) :
    List Service :=
  (services.filter fun s => match f s with | .ok _ => true | .error _ => false).map
    fun s => applyDeployOutcome s (f s)

/-- The fresh-deploy `CheckDeployed` failure test (`main.go:353-358`): a unit
counts as failed unless its error is nil or `ErrNoDeployCheckURL`. -/
def freshCheckFailed (services : List Service) (f : Service → Option GErr) : Bool :=
  services.any fun s => decide (¬(f s = none ∨ f s = some GErr.noDeployCheckURL))

/-- The `CheckDrained` failure test (`main.go:401-406`): any non-nil error. -/
def drainFailed (services : List Service) (f : Service → Option GErr) : Bool :=
  services.any fun s => (f s).isSome

/-- The tail of `main` from `CheckDeployed` on (`main.go:350-430`): a check
failure triggers `performRollback` over the full current unit set when the
deploy stage was enabled, and a fatal exit otherwise; a drain failure is
only reported and the run still finishes (degraded success). -/
def runChecks (deployEnabled : Bool) (services : List Service) (evs : List StageEvent)
    (o : Oracles) : RunResult :=
  if freshCheckFailed services o.checkDeployedErr then
    if deployEnabled then
      { events := evs ++ [StageEvent.checkDeployedStage, StageEvent.rollback],
        rollbackCall := some services, finalServices := services,
        outcome := RunOutcome.rollbackRun }
    else
      { events := evs ++ [StageEvent.checkDeployedStage], rollbackCall := none,
        finalServices := services, outcome := RunOutcome.deployFailedExit }
  else
    { events := evs ++ [StageEvent.checkDeployedStage, StageEvent.checkDrainedStage],
      rollbackCall := none, finalServices := services,
      outcome := if drainFailed services o.checkDrainedErr then RunOutcome.degradedSuccess
                 else RunOutcome.success }

/-- The deployment zone of `main` (`main.go:286-430`): scheduled tasks are
updated first and a failure there exits before any service deploy; with the
deploy stage enabled (`updateStrategy ≠ none`), a partial deploy failure
invokes `performRollback` over the succeeded subset only; otherwise the run
continues into the check stages. -/
def runMain (deployEnabled : Bool) (services : List Service) (o : Oracles) : RunResult :=
  if o.scheduledFailed then
    { events := [StageEvent.updateScheduledTasks], rollbackCall := none,
      finalServices := services, outcome := RunOutcome.fatalScheduledTasks }
  else if deployEnabled then
    if deployStageFailed services o.deployOutcome then
      { events := [StageEvent.updateScheduledTasks, StageEvent.deployStage,
                   StageEvent.rollback],
        rollbackCall := some (deploySucceeded services o.deployOutcome),
        finalServices := deployUpdated services o.deployOutcome,
        outcome := RunOutcome.rollbackRun }
    else
      runChecks true (deployUpdated services o.deployOutcome)
        [StageEvent.updateScheduledTasks, StageEvent.deployStage] o
  else
    runChecks false services [StageEvent.updateScheduledTasks] o

/-- Terminal classification of `performRollback` (`main.go:79-200`). -/
inductive RollbackOutcome where
  | fatalUpdateFailed
  | fatalCheckDeployedFailed
  | fatalScheduledRollback
  | finishedDegraded
  | finished
deriving DecidableEq

/-- Collaborator outcomes inside `performRollback`, per swapped unit. -/
structure RollbackOracles where
  updateErr : Service → Option GErr
  checkDeployedErr : Service → Option GErr
  checkDrainedErr : Service → Option GErr
  scheduledRollbackFailed : Bool

/-- `performRollback` (`main.go:79-200`): swap every unit, fatal-exit if any
update failed; then `CheckDeployed`, where ANY non-nil error — including
`ErrNoDeployCheckURL` and `ErrTimedOut` — is counted as a failure
(`main.go:106-111`) and causes a fatal exit; then `CheckDrained`, whose
failures only warn; finally the scheduled tasks are rolled back, a failure
there being fatal. -/
def performRollbackModel (services : List Service) (o : RollbackOracles) :
    RollbackOutcome :=
  let swapped := services.map rollbackSwap
  if swapped.any fun s => (o.updateErr s).isSome then RollbackOutcome.fatalUpdateFailed
  else if swapped.any fun s => (o.checkDeployedErr s).isSome then
    RollbackOutcome.fatalCheckDeployedFailed
  else if o.scheduledRollbackFailed then RollbackOutcome.fatalScheduledRollback
  else if swapped.any fun s => (o.checkDrainedErr s).isSome then
    RollbackOutcome.finishedDegraded
  else RollbackOutcome.finished

lemma exactlyOne_of_names_perm {services : List Service} {results : List Result}
    (hp : List.Perm (results.map fun r => r.service.name) (services.map fun s => s.name))
    (h1 : (services.map fun s => s.name).Nodup) :
    exactlyOnePerUnit services results := by
  constructor
  · have := hp.length_eq
    simpa using this
  · intro s hs
    have hmem : s.name ∈ services.map fun s => s.name := List.mem_map.2 ⟨s, hs, rfl⟩
    have hcount : (services.map fun s => s.name).count s.name = 1 :=
      List.count_eq_one_of_mem h1 hmem
    rw [countName, hp.count_eq, hcount]

lemma deployCheckMatches_iff (g t : String) :
    deployCheckMatches g t = true ↔ 8 ≤ t.data.length ∧ t.data <+: g.data := by
  simp only [deployCheckMatches, Bool.and_eq_true, decide_eq_true_eq,
    List.isPrefixOf_iff_prefix]
  constructor
  · rintro ⟨h1, h2⟩
    exact ⟨by omega, h2⟩
  · rintro ⟨h1, h2⟩
    exact ⟨by omega, h2⟩

/-- C2 counterexample: the claim states that target version `"abc123def"` is
matched by the probed token `"abc123d"`, but `CheckDeployed` requires
`len(fetchedSha) > 7` and `"abc123d"` has length exactly 7, so the
comparison rejects it. -/
theorem c2_counterexample :
    deployCheckMatches "abc123def" "abc123d" = false := by decide

/-- C2 (amended): the probe comparison succeeds exactly when the full target
version starts with the probed token AND the token has length at least 8:
`"abc123def"` is matched by `"abc123de"` but not by `"abc123d"` or `"xyz"`,
and any token of length at most 7 (in particular an empty or near-empty
token) never matches. -/
theorem c2_version_match_amended :
    (∀ (g t : String), deployCheckMatches g t = true ↔ 8 ≤ t.data.length ∧ t.data <+: g.data)
    ∧ (∀ (g t : String), t.data.length ≤ 7 → deployCheckMatches g t = false)
    ∧ deployCheckMatches "abc123def" "abc123de" = true
    ∧ deployCheckMatches "abc123def" "xyz" = false := by
  refine ⟨deployCheckMatches_iff, ?_, by decide, by decide⟩
  intro g t h
  cases hm : deployCheckMatches g t
  · rfl
  · have h8 := ((deployCheckMatches_iff g t).mp hm).1
    omega

/-- C2 witness for the amended theorem at a concrete input. -/
theorem c2_version_match_witness :
    deployCheckMatches "da39a3ee5e6b4b0d" "xy" = false :=
  c2_version_match_amended.2.1 "da39a3ee5e6b4b0d" "xy" (by decide)

lemma checkDeployedPoll_never_err (g : String) :
    ∀ (obs : List ProbeObs) (e : GErr), checkDeployedPoll g obs ≠ some (some e) := by
  intro obs
  induction obs with
  | nil =>
    intro e h
    simp [checkDeployedPoll] at h
  | cons o rest ih =>
    intro e
    cases o with
    | fail m => simpa [checkDeployedPoll] using ih e
    | token sha =>
      by_cases hm : deployCheckMatches g sha
      · simp [checkDeployedPoll, hm]
      · simpa [checkDeployedPoll, hm] using ih e

/-- C6: error recoverability differs between the polling stages.  In
`CheckDrained` a backend status-query error immediately yields a failure
result for the unit with no retry; in `CheckDeployed` a probe error is
skipped and polling retries, and a probe error is never surfaced as the
unit's stage result. -/
theorem c6_error_recoverability :
    (∀ (m : String) (rest : List DrainObs),
        checkDrainedPoll (DrainObs.fail m :: rest) = some (some (GErr.backend m)))
    ∧ (∀ (s : Service) (m : String) (obs : List ProbeObs), s.url ≠ "" →
        checkDeployedUnit s (ProbeObs.fail m :: obs) = checkDeployedUnit s obs)
    ∧ (∀ (s : Service) (obs : List ProbeObs) (e : GErr), s.url ≠ "" →
        checkDeployedUnit s obs ≠ some (some e)) := by
  refine ⟨fun m rest => rfl, ?_, ?_⟩
  · intro s m obs hurl
    simp [checkDeployedUnit, hurl, checkDeployedPoll]
  · intro s obs e hurl
    simp only [checkDeployedUnit, if_neg hurl]
    exact checkDeployedPoll_never_err s.gitsha obs e

def c6service : Service := mkService "svc" "da39a3ee5e6b4b0d" "http://svc/ping"

/-- C6 witness at a concrete service and observation traces. -/
theorem c6_error_recoverability_witness :
    checkDrainedPoll [DrainObs.fail "boom"] = some (some (GErr.backend "boom"))
    ∧ checkDeployedUnit c6service [ProbeObs.fail "boom"] = checkDeployedUnit c6service []
    ∧ checkDeployedUnit c6service [] ≠ some (some GErr.timedOut) :=
  ⟨c6_error_recoverability.1 "boom" [],
   c6_error_recoverability.2.1 c6service "boom" [] (by decide),
   c6_error_recoverability.2.2 c6service [] GErr.timedOut (by decide)⟩

/-- C7: the rollback swap is symmetric.  For a unit on which Deploy succeeded
(writing the observed previous version, the previously active revision ARN
and the new revision ARN), the swap restores the unit's version and revision
ARN exactly to the values observed before Deploy ran, keeps the abandoned
target as the new previous version, and the swap is an involution. -/
theorem c7_rollback_restores (s : Service) (w : DeployWrite) :
    (rollbackSwap (applyDeployWrite s w)).gitsha = w.previousGitsha
    ∧ (rollbackSwap (applyDeployWrite s w)).taskDefinitionARN = w.awsTaskDefARN
    ∧ (rollbackSwap (applyDeployWrite s w)).previousGitsha = s.gitsha
    ∧ (rollbackSwap (applyDeployWrite s w)).previousTaskDefinitionARN = w.newTaskDefARN
    ∧ rollbackSwap (rollbackSwap s) = s :=
  ⟨rfl, rfl, rfl, rfl, rfl⟩

def c8taskDef : TaskDef :=
  { arn := "arn1", containers := [{ name := "api", image := "repo:abc12345" }] }

/-- C8 counterexample: deploying the version that is already running.
`updateTaskDef` observes previous tag `"abc12345"`, equal to the target, so
no image changes and the call succeeds; `Deploy` then writes
`PreviousGitsha = "abc12345"`, leaving it EQUAL to `Gitsha` after a
successful deploy — the populated previous version is not distinct from the
target. -/
theorem c8_counterexample :
    (deployService (mkService "svc" "abc12345" "") c8taskDef "arn2" []).previousGitsha
      = (deployService (mkService "svc" "abc12345" "") c8taskDef "arn2" []).gitsha
    ∧ (deployService (mkService "svc" "abc12345" "") c8taskDef "arn2" []).previousGitsha
      = "abc12345" := by
  constructor
  · decide
  · decide

/-- C8 (amended): after a successful Deploy the unit's target version is
unchanged and its previous version equals the SHA observed on the
pre-deploy task definition; the two are distinct exactly when the observed
SHA differs from the target — a deploy of the already-running version
leaves them equal. -/
theorem c8_previous_distinct_amended (s : Service) (td : TaskDef) (registeredARN : String)
    (dockerTags : List String) :
    (deployService s td registeredARN dockerTags).gitsha = s.gitsha
    ∧ (deployService s td registeredARN dockerTags).previousGitsha
        = observedPreviousSha td s.gitsha s.containers
    ∧ ((deployService s td registeredARN dockerTags).gitsha
          ≠ (deployService s td registeredARN dockerTags).previousGitsha
        ↔ observedPreviousSha td s.gitsha s.containers ≠ s.gitsha) := by
  have h2 : (deployService s td registeredARN dockerTags).previousGitsha
      = observedPreviousSha td s.gitsha s.containers := by
    cases h : (updateTaskDefLoop s.gitsha s.containers td.containers ⟨"", false⟩).2.shouldUpdate <;>
      simp [deployService, updateTaskDefModel, applyDeployWrite, observedPreviousSha, h]
  have h1 : (deployService s td registeredARN dockerTags).gitsha = s.gitsha := rfl
  refine ⟨h1, h2, ?_⟩
  rw [h1, h2]
  exact ne_comm

/-- C8 witness for the amended theorem at a concrete input. -/
theorem c8_previous_distinct_witness :
    (deployService (mkService "web" "def67890" "") c8taskDef "arn3" []).gitsha = "def67890"
    ∧ (deployService (mkService "web" "def67890" "") c8taskDef "arn3" []).previousGitsha
        = observedPreviousSha c8taskDef "def67890" [] :=
  ⟨(c8_previous_distinct_amended (mkService "web" "def67890" "") c8taskDef "arn3" []).1,
   (c8_previous_distinct_amended (mkService "web" "def67890" "") c8taskDef "arn3" []).2.1⟩

/-- C10: `Rollback` exchanges target/previous version and current/previous
revision ARN on every input unit before the backend update is issued, and
the exchange is kept whatever the backend answers: the final unit states are
exactly the swapped inputs, every stage result carries a swapped unit, and
each input unit appears swapped in the results — with whatever error the
backend update returned for it. -/
theorem c10_rollback_swaps_kept (services : List Service) (updErr : Service → Option GErr) :
    (rollbackStage services updErr).1 = services.map rollbackSwap
    ∧ ((rollbackStage services updErr).2.map fun r => r.service) = services.map rollbackSwap
    ∧ ∀ s ∈ services,
        ({ service := rollbackSwap s, err := updErr (rollbackSwap s) } : Result)
          ∈ (rollbackStage services updErr).2 := by
  refine ⟨rfl, ?_, ?_⟩
  · simp [rollbackStage, List.map_map, Function.comp_def]
  · intro s hs
    have h1 : rollbackSwap s ∈ services.map rollbackSwap := List.mem_map_of_mem _ hs
    simpa [rollbackStage] using
      List.mem_map_of_mem (fun s => ({ service := s, err := updErr s } : Result)) h1

def c10service : Service :=
  { name := "svc", gitsha := "new12345", cluster := "c", url := "http://svc",
    updateStrategy := "current", containers := [], previousGitsha := "old12345",
    previousTaskDefinitionARN := "arn-old", taskDefinitionARN := "arn-new", tags := [] }

/-- C10 witness: a unit whose backend update fails still appears swapped. -/
theorem c10_rollback_swaps_witness :
    ({ service := rollbackSwap c10service, err := some (GErr.backend "down") } : Result)
      ∈ (rollbackStage [c10service] fun _ => some (GErr.backend "down")).2 :=
  (c10_rollback_swaps_kept [c10service] fun _ => some (GErr.backend "down")).2.2
    c10service (by simp)

def c3sA : Service := mkService "alpha" "abc12345" "http://a"

def c3sB : Service := mkService "beta" "abc12345" "http://b"

/-- C3 counterexample: the deadline timer is NOT started once per stage —
`time.After(timeoutDuration)` is re-created at every iteration of the
collection loop, so each received result re-arms it.  With a timeout of 10
and two units each reporting after 9, the stage waits 18 > 10: the total
wait beyond the stage start exceeds the configured timeout. -/
theorem c3_counterexample :
    ¬ pollElapsed 10 [c3sA, c3sB]
        [{ delay := 9, res := { service := c3sA, err := none } },
         { delay := 9, res := { service := c3sB, err := none } }] ≤ 10 := by
  decide

/-- C3 (amended): the deadline timer is re-armed at each iteration of the
collection loop, so the stage's total wait is bounded by (number of input
units) × timeout rather than by one timeout; when no result ever arrives the
loop stops after exactly one full timeout. -/
theorem c3_elapsed_bound (timeout : Nat) :
    (∀ (n : Nat) (arrivals : List Arrival), (pollLoop timeout n arrivals).2 ≤ n * timeout)
    ∧ (∀ (n : Nat), 0 < n → (pollLoop timeout n ([] : List Arrival)).2 = timeout) := by
  constructor
  · intro n
    induction n with
    | zero => intro arrivals; simp [pollLoop]
    | succ k ih =>
      intro arrivals
      cases arrivals with
      | nil =>
        simp only [pollLoop, Nat.succ_mul]
        exact Nat.le_add_left _ _
      | cons a rest =>
        by_cases h : a.delay ≤ timeout
        · simp only [pollLoop, if_pos h]
          calc a.delay + (pollLoop timeout k rest).2
              ≤ timeout + k * timeout := Nat.add_le_add h (ih rest)
            _ = (k + 1) * timeout := by ring
        · simp only [pollLoop, if_neg h]
          calc timeout ≤ timeout + k * timeout := Nat.le_add_right _ _
            _ = (k + 1) * timeout := by ring
  · intro n hn
    cases n with
    | zero => exact absurd hn (by simp)
    | succ k => simp [pollLoop]

/-- C3 witness for the amended theorem at a concrete input. -/
theorem c3_elapsed_bound_witness :
    0 < 2 ∧ (pollLoop 10 2 ([] : List Arrival)).2 = 10 :=
  ⟨by decide, (c3_elapsed_bound 10).2 2 (by decide)⟩

def c5service : Service := mkService "svc" "abc12345" ""

def c5oracle : RollbackOracles :=
  { updateErr := fun _ => none,
    checkDeployedErr := fun s => (checkDeployedUnit s []).getD (some GErr.timedOut),
    checkDrainedErr := fun _ => none,
    scheduledRollbackFailed := false }

/-- C5 counterexample: a unit without a check endpoint produces exactly the
`ErrNoDeployCheckURL` outcome, but when `CheckDeployed` is re-run inside
`performRollback` that outcome IS treated as a stage failure
(`main.go:106-111` exempts only nil errors), and the rollback aborts with
the fatal check-deployed failure — contradicting the claim that the outcome
is never treated as a stage failure in the rollback re-run. -/
theorem c5_counterexample :
    checkDeployedUnit (rollbackSwap c5service) [] = some (some GErr.noDeployCheckURL)
    ∧ performRollbackModel [c5service] c5oracle
        = RollbackOutcome.fatalCheckDeployedFailed := by
  constructor
  · decide
  · decide

/-- C5 (amended): a unit with an empty check URL yields exactly the
`ErrNoDeployCheckURL` outcome without the prober ever being consulted, and
the fresh-deploy Run Controller never counts that outcome as a
`CheckDeployed` stage failure; but in the `performRollback` re-run any
non-nil error — including `ErrNoDeployCheckURL` — is counted as a stage
failure and aborts the rollback confirmation. -/
theorem c5_no_check_amended :
    (∀ (s : Service) (obs : List ProbeObs), s.url = "" →
        checkDeployedUnit s obs = some (some GErr.noDeployCheckURL))
    ∧ (∀ (services : List Service) (f : Service → Option GErr),
        (∀ s ∈ services, f s = none ∨ f s = some GErr.noDeployCheckURL) →
        freshCheckFailed services f = false)
    ∧ (∀ (services : List Service) (o : RollbackOracles) (s : Service), s ∈ services →
        (∀ s2, o.updateErr s2 = none) →
        o.checkDeployedErr (rollbackSwap s) = some GErr.noDeployCheckURL →
        performRollbackModel services o = RollbackOutcome.fatalCheckDeployedFailed) := by
  refine ⟨?_, ?_, ?_⟩
  · intro s obs h
    simp [checkDeployedUnit, h]
  · intro services f h
    by_contra hne
    have htrue : freshCheckFailed services f = true := by
      cases hb : freshCheckFailed services f
      · exact absurd hb hne
      · rfl
    rw [freshCheckFailed, List.any_eq_true] at htrue
    obtain ⟨s, hs, hp⟩ := htrue
    rw [decide_eq_true_eq] at hp
    exact hp (h s hs)
  · intro services o s hs hupd hcd
    have hupd0 : ((services.map rollbackSwap).any fun s2 => (o.updateErr s2).isSome)
        = false := by
      simp [hupd]
    have hcd1 : ((services.map rollbackSwap).any fun s2 => (o.checkDeployedErr s2).isSome)
        = true := by
      rw [List.any_eq_true]
      exact ⟨rollbackSwap s, List.mem_map_of_mem _ hs, by rw [hcd]; rfl⟩
    simp [performRollbackModel, hupd0, hcd1]

def c5wService : Service := mkService "web" "def67890" ""

def c5wOracle : RollbackOracles :=
  { updateErr := fun _ => none,
    checkDeployedErr := fun s => (checkDeployedUnit s []).getD (some GErr.timedOut),
    checkDrainedErr := fun _ => none,
    scheduledRollbackFailed := false }

/-- C5 witness for the amended theorem at a concrete input. -/
theorem c5_no_check_witness :
    performRollbackModel [c5wService] c5wOracle
      = RollbackOutcome.fatalCheckDeployedFailed :=
  c5_no_check_amended.2.2 [c5wService] c5wOracle c5wService (by simp)
    (fun _ => rfl) (by decide)

/-- C9: scheduled-task units are updated strictly before any service deploy —
the scheduled-task stage is always the first event of a run — and when a
scheduled-task update fails the run terminates immediately: no Deploy stage
is invoked and every service unit is left exactly in its initial state. -/
theorem c9_scheduled_tasks_first (deployEnabled : Bool) (services : List Service)
    (o : Oracles) :
    (runMain deployEnabled services o).events.head? = some StageEvent.updateScheduledTasks
    ∧ (o.scheduledFailed = true →
        (runMain deployEnabled services o).finalServices = services
        ∧ StageEvent.deployStage ∉ (runMain deployEnabled services o).events
        ∧ (runMain deployEnabled services o).outcome = RunOutcome.fatalScheduledTasks) := by
  cases hsched : o.scheduledFailed
  · cases deployEnabled
    · cases hcd : freshCheckFailed services o.checkDeployedErr <;>
        simp [runMain, runChecks, hsched, hcd]
    · cases hdep : deployStageFailed services o.deployOutcome
      · cases hcd : freshCheckFailed (deployUpdated services o.deployOutcome)
            o.checkDeployedErr <;>
          simp [runMain, runChecks, hsched, hdep, hcd]
      · simp [runMain, hsched, hdep]
  · simp [runMain, hsched]

def c9service : Service := mkService "svc" "abc12345" "http://svc"

def c9oracle : Oracles :=
  { scheduledFailed := true,
    deployOutcome := fun _ => Except.error (GErr.backend "boom"),
    checkDeployedErr := fun _ => none,
    checkDrainedErr := fun _ => none }

/-- C9 witness at a concrete failing scheduled-task update. -/
theorem c9_scheduled_tasks_witness :
    (runMain true [c9service] c9oracle).finalServices = [c9service]
    ∧ StageEvent.deployStage ∉ (runMain true [c9service] c9oracle).events
    ∧ (runMain true [c9service] c9oracle).outcome = RunOutcome.fatalScheduledTasks :=
  (c9_scheduled_tasks_first true [c9service] c9oracle).2 rfl

/-- C4: with the deploy stage enabled, the Run Controller invokes
`performRollback` in exactly two cases — over only the succeeded subset when
the Deploy stage partially fails, and over the full (post-deploy) unit set
when the `CheckDeployed` stage fails; when both those stages pass, no
rollback is invoked and a `CheckDrained` failure alone ends the run as a
degraded success; with the deploy stage disabled the Run Controller never
invokes a rollback at all. -/
theorem c4_rollback_policy (services : List Service) (o : Oracles) :
    (runMain false services o).rollbackCall = none
    ∧ (∀ X, (runMain true services o).rollbackCall = some X ↔
        (o.scheduledFailed = false ∧ deployStageFailed services o.deployOutcome = true
          ∧ X = deploySucceeded services o.deployOutcome)
      ∨ (o.scheduledFailed = false ∧ deployStageFailed services o.deployOutcome = false
          ∧ freshCheckFailed (deployUpdated services o.deployOutcome) o.checkDeployedErr
              = true
          ∧ X = deployUpdated services o.deployOutcome))
    ∧ (o.scheduledFailed = false →
        deployStageFailed services o.deployOutcome = false →
        freshCheckFailed (deployUpdated services o.deployOutcome) o.checkDeployedErr
            = false →
        (runMain true services o).rollbackCall = none
        ∧ (drainFailed (deployUpdated services o.deployOutcome) o.checkDrainedErr = true →
            (runMain true services o).outcome = RunOutcome.degradedSuccess)) := by
  refine ⟨?_, ?_⟩
  · cases hsched : o.scheduledFailed
    · cases hcd : freshCheckFailed services o.checkDeployedErr <;>
        simp [runMain, runChecks, hsched, hcd]
    · simp [runMain, hsched]
  cases hsched : o.scheduledFailed
  · cases hdep : deployStageFailed services o.deployOutcome
    · cases hcd : freshCheckFailed (deployUpdated services o.deployOutcome)
          o.checkDeployedErr
      · cases hdr : drainFailed (deployUpdated services o.deployOutcome)
            o.checkDrainedErr <;>
          simp [runMain, runChecks, hsched, hdep, hcd, hdr]
      · simp [runMain, runChecks, hsched, hdep, hcd]
        exact fun X => eq_comm
    · simp [runMain, hsched, hdep]
      exact fun X => eq_comm
  · simp [runMain, hsched]

def c4service : Service := mkService "svc" "abc12345" "http://svc"

def c4oracle : Oracles :=
  { scheduledFailed := false,
    deployOutcome := fun _ => Except.error (GErr.backend "boom"),
    checkDeployedErr := fun _ => none,
    checkDrainedErr := fun _ => none }

/-- C4 witness: a fully failed deploy stage invokes the rollback over the
(here empty) succeeded subset. -/
theorem c4_rollback_policy_witness :
    (runMain true [c4service] c4oracle).rollbackCall
      = some (deploySucceeded [c4service] c4oracle.deployOutcome) :=
  ((c4_rollback_policy [c4service] c4oracle).2.1
      (deploySucceeded [c4service] c4oracle.deployOutcome)).mpr
    (Or.inl ⟨rfl, by decide, rfl⟩)

/-- C1: for every stage — one-shot Deploy, Rollback, and the polling
collection shared by `CheckDeployed` and `CheckDrained` — a run with
pairwise-distinct unit names yields exactly one stage result per input unit,
even when the deadline elapses before some unit completes; every unit whose
result was never received gets a synthesized `ErrTimedOut` result. -/
theorem c1_one_result_per_unit
    (timeout : Nat) (services order : List Service) (arrivals : List Arrival)
    (outcome updErr : Service → Option GErr)
    (h1 : (services.map fun s => s.name).Nodup)
    (hord : List.Perm order services)
    (h2 : ∀ a ∈ arrivals, a.res.service ∈ services)
    (h3 : (arrivals.map fun a => a.res.service.name).Nodup) :
    exactlyOnePerUnit services (oneShotStage order outcome)
    ∧ exactlyOnePerUnit services (rollbackStage services updErr).2
    ∧ exactlyOnePerUnit services (pollCollect timeout services arrivals)
    ∧ ∀ s ∈ services,
        s.name ∉ (pollReceived timeout services arrivals).map (fun r => r.service.name) →
        ({ service := s, err := some GErr.timedOut } : Result)
          ∈ pollCollect timeout services arrivals := by
  refine ⟨?_, ?_, ?_, ?_⟩
  · apply exactlyOne_of_names_perm _ h1
    have hsh : (oneShotStage order outcome).map (fun r => r.service.name)
        = order.map fun s => s.name := by
      simp [oneShotStage, List.map_map, Function.comp_def]
    rw [hsh]
    exact hord.map _
  · apply exactlyOne_of_names_perm _ h1
    have hsh : ((rollbackStage services updErr).2.map fun r => r.service.name)
        = services.map fun s => s.name := by
      simp [rollbackStage, List.map_map, Function.comp_def, rollbackSwap]
    rw [hsh]
  · exact exactlyOne_of_names_perm
      (pollCollect_names_perm timeout services arrivals h1 h2 h3) h1
  · intro s hs hnot
    simp only [pollCollect]
    refine List.mem_append_right _ ?_
    refine List.mem_map_of_mem _ ?_
    rw [List.mem_filter]
    exact ⟨hs, by simp [hnot]⟩

def c1sA : Service := mkService "alpha" "abc12345" "http://a"

def c1sB : Service := mkService "beta" "abc12345" "http://b"

/-- C1 witness: two units, only one of which reports before the deadline. -/
theorem c1_one_result_per_unit_witness :
    exactlyOnePerUnit [c1sA, c1sB] (oneShotStage [c1sB, c1sA] fun _ => none)
    ∧ exactlyOnePerUnit [c1sA, c1sB] ((rollbackStage [c1sA, c1sB] fun _ => none).2)
    ∧ exactlyOnePerUnit [c1sA, c1sB]
        (pollCollect 10 [c1sA, c1sB] [{ delay := 3, res := { service := c1sA, err := none } }])
    ∧ ∀ s ∈ [c1sA, c1sB],
        s.name ∉ (pollReceived 10 [c1sA, c1sB]
            [{ delay := 3, res := { service := c1sA, err := none } }]).map
          (fun r => r.service.name) →
        ({ service := s, err := some GErr.timedOut } : Result)
          ∈ pollCollect 10 [c1sA, c1sB]
              [{ delay := 3, res := { service := c1sA, err := none } }] :=
  c1_one_result_per_unit 10 [c1sA, c1sB] [c1sB, c1sA]
    [{ delay := 3, res := { service := c1sA, err := none } }]
    (fun _ => none) (fun _ => none) (by decide) (by decide) (by decide) (by decide)

end Gehen
